import Mathlib

/-!
Shallow embedding of the livestream signaling server
(src/unnamed/part_001, server section: `io.on('connection', ...)` handlers)
and the state it mutates (`streamState`, `connectedUsers`).

JavaScript `Map`s (insertion-ordered, unique keys) are embedded as
association lists in insertion order: `Map.set` of a fresh key appends at
the end, `Map.set` of a present key updates in place, `Map.delete` removes
the entry, and `map.keys().next().value` is the first key of the list.
JS numbers used as counters are embedded as `Int` (the code relies on
`Math.max(0, ...)` flooring, so the type itself is not `Nat`).
Each socket handler becomes a pure function from the handler's inputs and
the server state to the new server state paired with the list of emitted
events; `io.emit` is an event targeted at all sockets, `io.to(x).emit` and
`socket.emit` are events targeted at one socket id.
-/

namespace Livestream

/-- Entry of `connectedUsers` (set by the `user-info` handler). -/
structure UserInfo where
  username : String
  isAdmin : Bool
  joinTime : Nat
deriving Repr, DecidableEq

/-- Entry of `streamState.activeStreams` (set by the `start-stream` handler). -/
structure StreamInfo where
  adminUsername : String
  startTime : Nat
  isPrimary : Bool
deriving Repr, DecidableEq

/-- Insertion-ordered association list embedding a JS `Map`. -/
abbrev KVList (α : Type) := List (String × α)

/-- `map.get(k)`. -/
def lookupKey {α : Type} : KVList α → String → Option α
  | [], _ => none
  | (k', v) :: t, k => if k' = k then some v else lookupKey t k

/-- `map.set(k, v)`: update in place if present, else append (insertion order). -/
def setKey {α : Type} : KVList α → String → α → KVList α
  | [], k, v => [(k, v)]
  | (k', v') :: t, k, v => if k' = k then (k, v) :: t else (k', v') :: setKey t k v

/-- `map.delete(k)`. -/
def delKey {α : Type} (l : KVList α) (k : String) : KVList α :=
  l.filter (fun p => p.1 != k)

/-- `map.has(k)`. -/
def hasKey {α : Type} (l : KVList α) (k : String) : Bool :=
  l.any (fun p => p.1 == k)

/-- `map.keys().next().value`: the first (earliest-inserted) key. -/
def firstKey {α : Type} (l : KVList α) : Option String :=
  l.head?.map Prod.fst

/-- The global `streamState` object. -/
structure StreamState where
  isLive : Bool
  activeStreams : KVList StreamInfo
  viewerCount : Int
  startTime : Option Nat
  currentAdminSocketId : Option String
deriving Repr, DecidableEq

/-- The whole mutable server state: `streamState` plus `connectedUsers`. -/
structure ServerState where
  streamState : StreamState
  connectedUsers : KVList UserInfo
deriving Repr, DecidableEq

/-- Initial state of the process (the literals at declaration). -/
def initState : ServerState :=
  { streamState :=
      { isLive := false
        activeStreams := []
        viewerCount := 0
        startTime := none
        currentAdminSocketId := none }
    connectedUsers := [] }

/-- Where an emitted event goes: `io.emit` vs `io.to(id).emit`/`socket.emit`. -/
inductive Target where
  | all
  | conn (id : String)
deriving Repr, DecidableEq

/-- The events the server emits, with their payload fields. -/
inductive SEvent where
  | streamStarted (startTime : Option Nat) (adminUsername : String) (adminSocketId : String)
  | streamStatus (isLive : Bool) (viewerCount : Int) (startTime : Option Nat)
      (currentAdminSocketId : Option String)
  | streamError (message : String)
  | streamTransition (message : String) (newAdminSocketId : String)
  | streamEnded (message : String)
  | viewerJoined (viewerCount : Int) (viewerSocketId : String) (viewerUsername : String)
  | viewerCountUpdate (viewerCount : Int)
  | viewerJoinedConfirmed (message : String) (viewerCount : Int)
  | viewerLeft (viewerCount : Int) (viewerSocketId : String) (viewerUsername : String)
  | viewerReady (viewerSocketId : String) (viewerUsername : String)
  | webrtcSignal (signal : String) (fromId : String) (signalType : String)
  | chatMessage (id : Nat) (username : String) (message : String) (timestamp : Nat)
      (isAdmin : Bool) (socketId : String)
deriving Repr, DecidableEq

/-- One emitted event with its destination. -/
structure Emit where
  target : Target
  event : SEvent
deriving Repr, DecidableEq

/-- The payload of a `webrtc-signal` message as sent by a client:
`{signal, to, type, from}`.  The server reads only `to`, `signal`, `type`;
`fromField` is whatever sender id the caller claimed. -/
structure SignalData where
  signal : String
  toId : Option String
  signalType : String
  fromField : Option String
deriving Repr, DecidableEq

/-- `socket.on('user-info')`: registers the user and replies with the
current stream status. -/
def userInfo (sid : String) (username : String) (isAdmin : Bool) (now : Nat)
    (s : ServerState) : ServerState × List Emit :=
  let st := s.streamState
  ({ s with connectedUsers := setKey s.connectedUsers sid ⟨username, isAdmin, now⟩ },
   [⟨Target.conn sid,
     SEvent.streamStatus st.isLive st.viewerCount st.startTime st.currentAdminSocketId⟩])

/-- `socket.on('start-stream')`. -/
def startStream (sid : String) (now : Nat) (s : ServerState) : ServerState × List Emit :=
  match lookupKey s.connectedUsers sid with
  | some u =>
    if u.isAdmin then
      if hasKey s.streamState.activeStreams sid then
        (s, [⟨Target.conn sid, SEvent.streamError "You are already streaming"⟩])
      else
        let st :=
          { s.streamState with
            isLive := true
            currentAdminSocketId := some sid
            startTime := some now
            activeStreams := setKey s.streamState.activeStreams sid ⟨u.username, now, true⟩ }
        ({ s with streamState := st },
         [⟨Target.all, SEvent.streamStarted (some now) u.username sid⟩,
          ⟨Target.all,
           SEvent.streamStatus st.isLive st.viewerCount st.startTime st.currentAdminSocketId⟩])
    else
      (s, [⟨Target.conn sid, SEvent.streamError "Only admins can start streams"⟩])
  | none => (s, [⟨Target.conn sid, SEvent.streamError "Only admins can start streams"⟩])

/-- `socket.on('stop-stream')`. -/
def stopStream (sid : String) (s : ServerState) : ServerState × List Emit :=
  match lookupKey s.connectedUsers sid with
  | some u =>
    if u.isAdmin && hasKey s.streamState.activeStreams sid then
      let streams := delKey s.streamState.activeStreams sid
      if s.streamState.currentAdminSocketId = some sid then
        match streams with
        | (next, _) :: _ =>
          ({ s with streamState :=
              { s.streamState with
                activeStreams := streams
                currentAdminSocketId := some next } },
           [⟨Target.all, SEvent.streamTransition "Stream switched to another admin" next⟩])
        | [] =>
          ({ s with streamState :=
              { s.streamState with
                activeStreams := streams
                isLive := false
                currentAdminSocketId := none
                viewerCount := 0
                startTime := none } },
           [⟨Target.all, SEvent.streamEnded "Live stream ended"⟩,
            ⟨Target.all, SEvent.streamStatus false 0 none none⟩])
      else
        ({ s with streamState := { s.streamState with activeStreams := streams } }, [])
    else (s, [])
  | none => (s, [])

/-- `socket.on('join-stream')`. -/
def joinStream (sid : String) (s : ServerState) : ServerState × List Emit :=
  let errorEmit : List Emit :=
    [⟨Target.conn sid,
      SEvent.streamError
        (if s.streamState.isLive then "Failed to join stream" else "No live stream available")⟩]
  match lookupKey s.connectedUsers sid with
  | some u =>
    if !u.isAdmin && s.streamState.isLive then
      let st := { s.streamState with viewerCount := s.streamState.viewerCount + 1 }
      let notifyAdmin : List Emit :=
        match st.currentAdminSocketId with
        | some aid => [⟨Target.conn aid, SEvent.viewerJoined st.viewerCount sid u.username⟩]
        | none => []
      ({ s with streamState := st },
       notifyAdmin ++
         [⟨Target.all, SEvent.viewerCountUpdate st.viewerCount⟩,
          ⟨Target.conn sid,
           SEvent.viewerJoinedConfirmed "Successfully joined stream" st.viewerCount⟩])
    else (s, errorEmit)
  | none => (s, errorEmit)

/-- `socket.on('viewer-ready')`. -/
def viewerReady (sid : String) (s : ServerState) : ServerState × List Emit :=
  match lookupKey s.connectedUsers sid with
  | some u =>
    match s.streamState.currentAdminSocketId with
    | some aid =>
      if !u.isAdmin && s.streamState.isLive then
        (s, [⟨Target.conn aid, SEvent.viewerReady sid u.username⟩])
      else (s, [])
    | none => (s, [])
  | none => (s, [])

/-- `socket.on('leave-stream')`. -/
def leaveStream (sid : String) (s : ServerState) : ServerState × List Emit :=
  match lookupKey s.connectedUsers sid with
  | some u =>
    if !u.isAdmin && s.streamState.isLive then
      let st := { s.streamState with viewerCount := max 0 (s.streamState.viewerCount - 1) }
      let notifyAdmin : List Emit :=
        match st.currentAdminSocketId with
        | some aid => [⟨Target.conn aid, SEvent.viewerLeft st.viewerCount sid u.username⟩]
        | none => []
      ({ s with streamState := st },
       notifyAdmin ++ [⟨Target.all, SEvent.viewerCountUpdate st.viewerCount⟩])
    else (s, [])
  | none => (s, [])

/-- `socket.on('get-stream-status')`. -/
def getStreamStatus (sid : String) (s : ServerState) : ServerState × List Emit :=
  let st := s.streamState
  (s, [⟨Target.conn sid,
        SEvent.streamStatus st.isLive st.viewerCount st.startTime st.currentAdminSocketId⟩])

/-- `socket.on('webrtc-signal')`: `if (data.to)` then forward `{signal,
from: socket.id, type}` to `data.to`; otherwise nothing.  The JS truthiness
test makes both an absent `to` and the empty string fall to the else branch. -/
def webrtcSignal (sid : String) (data : SignalData) (s : ServerState) :
    ServerState × List Emit :=
  match data.toId with
  | some t =>
    if t != "" then
      (s, [⟨Target.conn t, SEvent.webrtcSignal data.signal sid data.signalType⟩])
    else (s, [])
  | none => (s, [])

/-- `socket.on('chat-message')`: `id = Date.now()`, `timestamp = new Date()`,
both embedded as the single clock value `now`; the text is forwarded verbatim. -/
def chatMessage (sid : String) (text : String) (now : Nat) (s : ServerState) :
    ServerState × List Emit :=
  match lookupKey s.connectedUsers sid with
  | some u =>
    (s, [⟨Target.all, SEvent.chatMessage now u.username text now u.isAdmin sid⟩])
  | none => (s, [])

/-- `socket.on('disconnect')`. -/
def disconnect (sid : String) (s : ServerState) : ServerState × List Emit :=
  match lookupKey s.connectedUsers sid with
  | some u =>
    if u.isAdmin && hasKey s.streamState.activeStreams sid then
      let streams := delKey s.streamState.activeStreams sid
      if s.streamState.currentAdminSocketId = some sid then
        match streams with
        | (next, _) :: _ =>
          ({ streamState :=
              { s.streamState with
                activeStreams := streams
                currentAdminSocketId := some next }
             connectedUsers := delKey s.connectedUsers sid },
           [⟨Target.all,
             SEvent.streamTransition "Stream switched due to admin disconnect" next⟩])
        | [] =>
          ({ streamState :=
              { s.streamState with
                activeStreams := streams
                isLive := false
                currentAdminSocketId := none
                viewerCount := 0
                startTime := none }
             connectedUsers := delKey s.connectedUsers sid },
           [⟨Target.all, SEvent.streamEnded "Stream ended - Admin disconnected"⟩,
            ⟨Target.all, SEvent.streamStatus false 0 none none⟩])
      else
        ({ streamState := { s.streamState with activeStreams := streams }
           connectedUsers := delKey s.connectedUsers sid }, [])
    else if !u.isAdmin && s.streamState.isLive then
      let st := { s.streamState with viewerCount := max 0 (s.streamState.viewerCount - 1) }
      let notifyAdmin : List Emit :=
        match st.currentAdminSocketId with
        | some aid => [⟨Target.conn aid, SEvent.viewerLeft st.viewerCount sid u.username⟩]
        | none => []
      ({ streamState := st, connectedUsers := delKey s.connectedUsers sid },
       notifyAdmin ++ [⟨Target.all, SEvent.viewerCountUpdate st.viewerCount⟩])
    else
      ({ s with connectedUsers := delKey s.connectedUsers sid }, [])
  | none => ({ s with connectedUsers := delKey s.connectedUsers sid }, [])

/-- One inbound event, with the data the server reads from it. -/
inductive Op where
  | userInfo (sid : String) (username : String) (isAdmin : Bool) (now : Nat)
  | startStream (sid : String) (now : Nat)
  | stopStream (sid : String)
  | joinStream (sid : String)
  | viewerReady (sid : String)
  | leaveStream (sid : String)
  | getStreamStatus (sid : String)
  | webrtcSignal (sid : String) (data : SignalData)
  | chatMessage (sid : String) (text : String) (now : Nat)
  | disconnect (sid : String)
deriving Repr, DecidableEq

/-- Dispatch of one inbound event to its handler. -/
def step (s : ServerState) : Op → ServerState × List Emit
  | Op.userInfo sid username isAdmin now => userInfo sid username isAdmin now s
  | Op.startStream sid now => startStream sid now s
  | Op.stopStream sid => stopStream sid s
  | Op.joinStream sid => joinStream sid s
  | Op.viewerReady sid => viewerReady sid s
  | Op.leaveStream sid => leaveStream sid s
  | Op.getStreamStatus sid => getStreamStatus sid s
  | Op.webrtcSignal sid data => webrtcSignal sid data s
  | Op.chatMessage sid text now => chatMessage sid text now s
  | Op.disconnect sid => disconnect sid s

/-- The state after one inbound event (events are processed to completion,
one at a time). -/
def stepState (s : ServerState) (op : Op) : ServerState := (step s op).1

/-- The state after a sequence of inbound events. -/
def run (s : ServerState) (ops : List Op) : ServerState := ops.foldl stepState s

/-- socket.io delivery: an event targeted at all sockets reaches every
connected socket; an event targeted at one socket id reaches only the
socket that has that id (a socket is always in the room named by its own
id), and nobody when no connected socket has that id. -/
def deliversTo (c : String) (e : Emit) : Bool :=
  match e.target with
  | Target.all => true
  | Target.conn id => id == c

/-- The events of `emits` that socket `c` receives, given the list of
currently connected socket ids. -/
def deliveries (sockets : List String) (emits : List Emit) (c : String) : List SEvent :=
  if sockets.contains c then (emits.filter (deliversTo c)).map Emit.event else []

/-- The GlobalStreamState invariant: `isLive` iff `activeStreams` is
non-empty; `currentAdminSocketId` is non-null iff `isLive`; and when set it
is a key of `activeStreams`. -/
def streamInv (st : StreamState) : Bool :=
  (st.isLive == !st.activeStreams.isEmpty) &&
  (st.currentAdminSocketId.isSome == st.isLive) &&
  (match st.currentAdminSocketId with
   | some k => hasKey st.activeStreams k
   | none => true)

/-- The maximum chat text length enforced by the frontend input element
(`maxLength={500}` in Chat.jsx); the server itself enforces no bound. -/
def chatMaxLength : Nat := 500

/-- A chat text one character longer than the frontend's maximum. -/
def longChatText : String := String.mk (List.replicate 501 'a')

/-! ### Association-list (JS `Map`) lemmas -/

theorem hasKey_delKey_of {α : Type} {l : KVList α} {j k : String}
    (h : hasKey l k = true) (hne : k ≠ j) : hasKey (delKey l j) k = true := by
  simp only [hasKey, List.any_eq_true, beq_iff_eq] at h ⊢
  obtain ⟨p, hp, hpk⟩ := h
  refine ⟨p, ?_, hpk⟩
  simp only [delKey, List.mem_filter, bne_iff_ne]
  exact ⟨hp, by rw [hpk]; exact hne⟩

theorem isEmpty_setKey {α : Type} (l : KVList α) (k : String) (v : α) :
    (setKey l k v).isEmpty = false := by
  cases l with
  | nil => rfl
  | cons a t => simp only [setKey]; split <;> rfl

theorem hasKey_setKey_self {α : Type} (l : KVList α) (k : String) (v : α) :
    hasKey (setKey l k v) k = true := by
  induction l with
  | nil => simp [setKey, hasKey]
  | cons a t ih =>
    simp only [setKey]
    split
    · simp [hasKey]
    · simp only [hasKey, List.any_cons] at *
      simp [ih]

theorem isEmpty_false_of_hasKey {α : Type} {l : KVList α} {k : String}
    (h : hasKey l k = true) : l.isEmpty = false := by
  cases l with
  | nil => simp [hasKey] at h
  | cons a t => rfl

/-! ### Preservation of the GlobalStreamState invariant -/

theorem streamInv_step (s : ServerState) (op : Op)
    (h : streamInv s.streamState = true) :
    streamInv (stepState s op).streamState = true := by
  simp only [streamInv, Bool.and_eq_true, beq_iff_eq] at h
  obtain ⟨⟨hLive, hSome⟩, hKey⟩ := h
  cases op with
  | userInfo sid username isAdmin now =>
    simp only [stepState, step, userInfo]
    simp [streamInv, hLive, hSome]
    exact hKey
  | startStream sid now =>
    simp only [stepState, step, startStream]
    split
    · next u heq =>
      split
      · split
        · simp [streamInv, hLive, hSome]; exact hKey
        · simp [streamInv, isEmpty_setKey, hasKey_setKey_self]
      · simp [streamInv, hLive, hSome]; exact hKey
    · simp [streamInv, hLive, hSome]; exact hKey
  | stopStream sid =>
    simp only [stepState, step, stopStream]
    split
    · next u heq =>
      split
      · next hcond =>
        simp only [Bool.and_eq_true] at hcond
        have hhas : hasKey s.streamState.activeStreams sid = true := hcond.2
        have hLiveTrue : s.streamState.isLive = true := by
          rw [hLive, isEmpty_false_of_hasKey hhas]; rfl
        split
        · next hprim =>
          split
          · next next info rest hstreams =>
            simp [streamInv, hLiveTrue, hstreams, hasKey, List.any_cons]
          · next hstreams => simp [streamInv, hstreams]
        · next hprim =>
          obtain ⟨kp, hkp⟩ : ∃ kp, s.streamState.currentAdminSocketId = some kp := by
            cases hcur : s.streamState.currentAdminSocketId with
            | none => rw [hcur] at hSome; rw [hLiveTrue] at hSome; simp at hSome
            | some kp => exact ⟨kp, rfl⟩
          have hkpne : kp ≠ sid := by
            intro hcontra; exact hprim (by rw [hkp, hcontra])
          have hKeyp : hasKey s.streamState.activeStreams kp = true := by
            rw [hkp] at hKey; exact hKey
          have hkp2 : hasKey (delKey s.streamState.activeStreams sid) kp = true :=
            hasKey_delKey_of hKeyp hkpne
          simp [streamInv, hLiveTrue, hkp, isEmpty_false_of_hasKey hkp2, hkp2]
      · simp [streamInv, hLive, hSome]; exact hKey
    · simp [streamInv, hLive, hSome]; exact hKey
  | joinStream sid =>
    simp only [stepState, step, joinStream]
    split
    · next u heq =>
      split
      · simp [streamInv, hLive, hSome]; exact hKey
      · simp [streamInv, hLive, hSome]; exact hKey
    · simp [streamInv, hLive, hSome]; exact hKey
  | viewerReady sid =>
    simp only [stepState, step, viewerReady]
    split
    · next u heq =>
      split
      · split
        · simp [streamInv, hLive, hSome]; exact hKey
        · simp [streamInv, hLive, hSome]; exact hKey
      · simp [streamInv, hLive, hSome]; exact hKey
    · simp [streamInv, hLive, hSome]; exact hKey
  | leaveStream sid =>
    simp only [stepState, step, leaveStream]
    split
    · next u heq =>
      split
      · simp [streamInv, hLive, hSome]; exact hKey
      · simp [streamInv, hLive, hSome]; exact hKey
    · simp [streamInv, hLive, hSome]; exact hKey
  | getStreamStatus sid =>
    simp only [stepState, step, getStreamStatus]
    simp [streamInv, hLive, hSome]; exact hKey
  | webrtcSignal sid data =>
    simp only [stepState, step, webrtcSignal]
    split
    · split
      · simp [streamInv, hLive, hSome]; exact hKey
      · simp [streamInv, hLive, hSome]; exact hKey
    · simp [streamInv, hLive, hSome]; exact hKey
  | chatMessage sid text now =>
    simp only [stepState, step, chatMessage]
    split
    · simp [streamInv, hLive, hSome]; exact hKey
    · simp [streamInv, hLive, hSome]; exact hKey
  | disconnect sid =>
    simp only [stepState, step, disconnect]
    split
    · next u heq =>
      split
      · next hcond =>
        simp only [Bool.and_eq_true] at hcond
        have hhas : hasKey s.streamState.activeStreams sid = true := hcond.2
        have hLiveTrue : s.streamState.isLive = true := by
          rw [hLive, isEmpty_false_of_hasKey hhas]; rfl
        split
        · next hprim =>
          split
          · next next info rest hstreams =>
            simp [streamInv, hLiveTrue, hstreams, hasKey, List.any_cons]
          · next hstreams => simp [streamInv, hstreams]
        · next hprim =>
          obtain ⟨kp, hkp⟩ : ∃ kp, s.streamState.currentAdminSocketId = some kp := by
            cases hcur : s.streamState.currentAdminSocketId with
            | none => rw [hcur] at hSome; rw [hLiveTrue] at hSome; simp at hSome
            | some kp => exact ⟨kp, rfl⟩
          have hkpne : kp ≠ sid := by
            intro hcontra; exact hprim (by rw [hkp, hcontra])
          have hKeyp : hasKey s.streamState.activeStreams kp = true := by
            rw [hkp] at hKey; exact hKey
          have hkp2 : hasKey (delKey s.streamState.activeStreams sid) kp = true :=
            hasKey_delKey_of hKeyp hkpne
          simp [streamInv, hLiveTrue, hkp, isEmpty_false_of_hasKey hkp2, hkp2]
      · split
        · simp [streamInv, hLive, hSome]; exact hKey
        · simp [streamInv, hLive, hSome]; exact hKey
    · simp [streamInv, hLive, hSome]; exact hKey

theorem streamInv_run (s : ServerState) (ops : List Op)
    (h : streamInv s.streamState = true) :
    streamInv (run s ops).streamState = true := by
  induction ops generalizing s with
  | nil => exact h
  | cons op t ih => exact ih (stepState s op) (streamInv_step s op h)

/-! ### Non-negativity of `viewerCount` -/

theorem viewerCount_nonneg_step (s : ServerState) (op : Op)
    (h : 0 ≤ s.streamState.viewerCount) :
    0 ≤ (stepState s op).streamState.viewerCount := by
  have hmax : (0:Int) ≤ max 0 (s.streamState.viewerCount - 1) := le_max_left _ _
  have hzero : (0:Int) ≤ 0 := le_refl 0
  have hsucc : (0:Int) ≤ s.streamState.viewerCount + 1 := by omega
  cases op with
  | userInfo sid username isAdmin now => exact h
  | startStream sid now =>
    simp only [stepState, step, startStream]
    split
    · split
      · split
        · exact h
        · exact h
      · exact h
    · exact h
  | stopStream sid =>
    simp only [stepState, step, stopStream]
    split
    · split
      · split
        · split
          · exact h
          · exact hzero
        · exact h
      · exact h
    · exact h
  | joinStream sid =>
    simp only [stepState, step, joinStream]
    split
    · split
      · exact hsucc
      · exact h
    · exact h
  | viewerReady sid =>
    simp only [stepState, step, viewerReady]
    split
    · split
      · split
        · exact h
        · exact h
      · exact h
    · exact h
  | leaveStream sid =>
    simp only [stepState, step, leaveStream]
    split
    · split
      · exact hmax
      · exact h
    · exact h
  | getStreamStatus sid => exact h
  | webrtcSignal sid data =>
    simp only [stepState, step, webrtcSignal]
    split
    · split
      · exact h
      · exact h
    · exact h
  | chatMessage sid text now =>
    simp only [stepState, step, chatMessage]
    split
    · exact h
    · exact h
  | disconnect sid =>
    simp only [stepState, step, disconnect]
    split
    · split
      · split
        · split
          · exact h
          · exact hzero
        · exact h
      · split
        · exact hmax
        · exact h
    · exact h

theorem viewerCount_nonneg_run (s : ServerState) (ops : List Op)
    (h : 0 ≤ s.streamState.viewerCount) :
    0 ≤ (run s ops).streamState.viewerCount := by
  induction ops generalizing s with
  | nil => exact h
  | cons op t ih => exact ih (stepState s op) (viewerCount_nonneg_step s op h)

/-! ### Claim theorems -/

/-- C2: after every sequence of inbound events processed from the initial
state (in particular after every `start-stream`, `stop-stream`,
`join-stream`, `leave-stream` and `disconnect` transition), the
GlobalStreamState invariant holds: `isLive` is true iff `activeStreams` is
non-empty, `currentAdminSocketId` is non-null iff `isLive`, and
`currentAdminSocketId`, when set, is a key of `activeStreams`. -/
theorem c2_global_stream_state_invariant (ops : List Op) :
    streamInv (run initState ops).streamState = true :=
  streamInv_run initState ops (by decide)

/-- C6: `viewerCount` is non-negative after every sequence of inbound
events from the initial state, and both `leave-stream` and the
viewer-disconnect transition set it to `max 0 (viewerCount - 1)` — a
decrement floored at zero — so more leaves than joins never make it
negative. -/
theorem c6_viewer_count_never_negative :
    (∀ ops : List Op, 0 ≤ (run initState ops).streamState.viewerCount) ∧
    (∀ (s : ServerState) (sid : String) (u : UserInfo),
      lookupKey s.connectedUsers sid = some u → u.isAdmin = false →
      s.streamState.isLive = true →
      (leaveStream sid s).1.streamState.viewerCount
          = max 0 (s.streamState.viewerCount - 1) ∧
      (disconnect sid s).1.streamState.viewerCount
          = max 0 (s.streamState.viewerCount - 1)) := by
  constructor
  · intro ops
    exact viewerCount_nonneg_run initState ops (by decide)
  · intro s sid u hu hadmin hlive
    constructor
    · simp [leaveStream, hu, hadmin, hlive]
    · simp [disconnect, hu, hadmin, hlive]

/-- Witness for C6 at concrete inputs: a run with one join and two leaves
ends with `viewerCount = 0`, and one concrete leave from count `1` floors
to `max 0 0`. -/
theorem c6_viewer_count_never_negative_witness :
    (0 ≤ (run initState [Op.userInfo "A" "admin" true 0,
        Op.userInfo "V" "viewer" false 0, Op.startStream "A" 1,
        Op.joinStream "V", Op.leaveStream "V", Op.leaveStream "V"]).streamState.viewerCount) ∧
    (leaveStream "V" (run initState [Op.userInfo "A" "admin" true 0,
        Op.userInfo "V" "viewer" false 0, Op.startStream "A" 1,
        Op.joinStream "V"])).1.streamState.viewerCount
      = max 0 ((run initState [Op.userInfo "A" "admin" true 0,
        Op.userInfo "V" "viewer" false 0, Op.startStream "A" 1,
        Op.joinStream "V"]).streamState.viewerCount - 1) :=
  ⟨c6_viewer_count_never_negative.1 _,
   (c6_viewer_count_never_negative.2 _ "V" ⟨"viewer", false, 0⟩
      (by decide) (by decide) (by decide)).1⟩

/-- C1 counterexample: with admin `A1` already live and primary (and
`startTime = 1`), a successful `start-stream` from a second admin `A2`
adds `A2`'s session but also reassigns `currentAdminSocketId` to `A2` and
resets `startTime` — the first broadcaster does not remain primary, so the
claim as stated is false on the code. -/
theorem c1_counterexample :
    (run initState [Op.userInfo "A1" "admin1" true 0,
        Op.userInfo "A2" "admin2" true 0, Op.startStream "A1" 1]).streamState.isLive = true ∧
    (run initState [Op.userInfo "A1" "admin1" true 0,
        Op.userInfo "A2" "admin2" true 0, Op.startStream "A1" 1]).streamState.currentAdminSocketId = some "A1" ∧
    (run initState [Op.userInfo "A1" "admin1" true 0,
        Op.userInfo "A2" "admin2" true 0, Op.startStream "A1" 1]).streamState.startTime = some 1 ∧
    hasKey (run initState [Op.userInfo "A1" "admin1" true 0,
        Op.userInfo "A2" "admin2" true 0, Op.startStream "A1" 1,
        Op.startStream "A2" 2]).streamState.activeStreams "A2" = true ∧
    hasKey (run initState [Op.userInfo "A1" "admin1" true 0,
        Op.userInfo "A2" "admin2" true 0, Op.startStream "A1" 1,
        Op.startStream "A2" 2]).streamState.activeStreams "A1" = true ∧
    (run initState [Op.userInfo "A1" "admin1" true 0,
        Op.userInfo "A2" "admin2" true 0, Op.startStream "A1" 1,
        Op.startStream "A2" 2]).streamState.currentAdminSocketId = some "A2" ∧
    (run initState [Op.userInfo "A1" "admin1" true 0,
        Op.userInfo "A2" "admin2" true 0, Op.startStream "A1" 1,
        Op.startStream "A2" 2]).streamState.startTime = some 2 := by
  decide

/-- C1 amended: when the stream is already live, a successful
`start-stream` by a different admin adds that admin's session and
reassigns `currentAdminSocketId` (and `startTime`) to the new admin — the
most recent starter becomes primary, not the first. -/
theorem c1_amended_new_broadcaster_becomes_primary
    (s : ServerState) (sid : String) (u : UserInfo) (now : Nat)
    (hu : lookupKey s.connectedUsers sid = some u)
    (hadmin : u.isAdmin = true)
    (hnew : hasKey s.streamState.activeStreams sid = false)
    (hlive : s.streamState.isLive = true) :
    (startStream sid now s).1.streamState.activeStreams
        = setKey s.streamState.activeStreams sid ⟨u.username, now, true⟩ ∧
    hasKey (startStream sid now s).1.streamState.activeStreams sid = true ∧
    (startStream sid now s).1.streamState.currentAdminSocketId = some sid ∧
    (startStream sid now s).1.streamState.startTime = some now ∧
    (startStream sid now s).1.streamState.isLive = true := by
  simp [startStream, hu, hadmin, hnew, hasKey_setKey_self]

/-- Witness for C1 amended: concrete second admin `A2` starting at time
`2` over a state where `A1` is live and primary. -/
theorem c1_amended_witness :
    (startStream "A2" 2 (run initState [Op.userInfo "A1" "admin1" true 0,
        Op.userInfo "A2" "admin2" true 0, Op.startStream "A1" 1])).1.streamState.currentAdminSocketId = some "A2" :=
  (c1_amended_new_broadcaster_becomes_primary
    (run initState [Op.userInfo "A1" "admin1" true 0,
      Op.userInfo "A2" "admin2" true 0, Op.startStream "A1" 1])
    "A2" ⟨"admin2", true, 0⟩ 2 (by decide) rfl (by decide) (by decide)).2.2.1

/-- C3: when the primary broadcaster stops while at least one other
session remains, the new primary is the first (earliest-inserted) key of
the remaining `activeStreams`, a stream-transition event naming the new
primary goes to all, `isLive` stays true, and the `disconnect` handler
produces the identical stream state and names the same new primary. -/
theorem c3_primary_failover_fifo
    (s : ServerState) (sid : String) (u : UserInfo)
    (next : String) (info : StreamInfo) (rest : KVList StreamInfo)
    (hu : lookupKey s.connectedUsers sid = some u)
    (hadmin : u.isAdmin = true)
    (hhas : hasKey s.streamState.activeStreams sid = true)
    (hprim : s.streamState.currentAdminSocketId = some sid)
    (hlive : s.streamState.isLive = true)
    (hrem : delKey s.streamState.activeStreams sid = (next, info) :: rest) :
    (stopStream sid s).1.streamState.currentAdminSocketId = some next ∧
    firstKey (delKey s.streamState.activeStreams sid) = some next ∧
    (stopStream sid s).1.streamState.isLive = true ∧
    (stopStream sid s).2
      = [⟨Target.all, SEvent.streamTransition "Stream switched to another admin" next⟩] ∧
    (disconnect sid s).1.streamState = (stopStream sid s).1.streamState ∧
    (disconnect sid s).2
      = [⟨Target.all,
          SEvent.streamTransition "Stream switched due to admin disconnect" next⟩] := by
  simp [stopStream, disconnect, firstKey, hu, hadmin, hhas, hprim, hlive, hrem]

/-- Witness for C3: `A1` and `A2` both streaming (primary `A2`), `A2`
stops, failover to `A1`. -/
theorem c3_primary_failover_fifo_witness :
    (stopStream "A2" (run initState [Op.userInfo "A1" "admin1" true 0,
        Op.userInfo "A2" "admin2" true 0, Op.startStream "A1" 1,
        Op.startStream "A2" 2])).1.streamState.currentAdminSocketId = some "A1" :=
  (c3_primary_failover_fifo
    (run initState [Op.userInfo "A1" "admin1" true 0,
      Op.userInfo "A2" "admin2" true 0, Op.startStream "A1" 1,
      Op.startStream "A2" 2])
    "A2" ⟨"admin2", true, 0⟩ "A1" ⟨"admin1", 1, true⟩ []
    (by decide) rfl (by decide) (by decide) (by decide) (by decide)).1

/-- C4 counterexample: `W` is a registered non-broadcaster that never sent
`join-stream` while the stream is live with one counted viewer
(`viewerCount = 1`); `W`'s disconnect nevertheless decrements
`viewerCount` to `0`, so the claim that such a disconnect leaves the
stream state unchanged is false on the code. -/
theorem c4_counterexample :
    lookupKey (run initState [Op.userInfo "A" "admin" true 0,
        Op.userInfo "V" "viewer" false 0, Op.userInfo "W" "other" false 0,
        Op.startStream "A" 1, Op.joinStream "V"]).connectedUsers "W"
      = some ⟨"other", false, 0⟩ ∧
    hasKey (run initState [Op.userInfo "A" "admin" true 0,
        Op.userInfo "V" "viewer" false 0, Op.userInfo "W" "other" false 0,
        Op.startStream "A" 1, Op.joinStream "V"]).streamState.activeStreams "W"
      = false ∧
    (run initState [Op.userInfo "A" "admin" true 0,
        Op.userInfo "V" "viewer" false 0, Op.userInfo "W" "other" false 0,
        Op.startStream "A" 1, Op.joinStream "V"]).streamState.viewerCount = 1 ∧
    (stepState (run initState [Op.userInfo "A" "admin" true 0,
        Op.userInfo "V" "viewer" false 0, Op.userInfo "W" "other" false 0,
        Op.startStream "A" 1, Op.joinStream "V"]) (Op.disconnect "W")).streamState.viewerCount = 0 := by
  decide

/-- C4 amended: a disconnect of a registered connection fires the
stop-equivalent transition when the connection is a broadcaster with an
active session; otherwise it fires the leave-equivalent transition for
every non-broadcaster while the stream is live (whether or not that
connection ever joined as a viewer — the core keeps no such record); in
the remaining cases (broadcaster without a session, or stream offline)
the stream state is unchanged. -/
theorem c4_amended_disconnect_dispatch
    (s : ServerState) (sid : String) (u : UserInfo)
    (hu : lookupKey s.connectedUsers sid = some u) :
    (u.isAdmin = true → hasKey s.streamState.activeStreams sid = true →
      (disconnect sid s).1.streamState = (stopStream sid s).1.streamState) ∧
    (u.isAdmin = false → s.streamState.isLive = true →
      (disconnect sid s).1.streamState = (leaveStream sid s).1.streamState) ∧
    (u.isAdmin = true → hasKey s.streamState.activeStreams sid = false →
      (disconnect sid s).1.streamState = s.streamState) ∧
    (u.isAdmin = false → s.streamState.isLive = false →
      (disconnect sid s).1.streamState = s.streamState) := by
  refine ⟨?_, ?_, ?_, ?_⟩
  · intro hadm hhas
    simp only [disconnect, stopStream, hu, hadm, hhas, Bool.and_self, if_true]
    by_cases hp : s.streamState.currentAdminSocketId = some sid
    · simp only [hp, if_true]
      cases hrem : delKey s.streamState.activeStreams sid with
      | nil => simp [hrem]
      | cons p t => cases p; simp [hrem]
    · simp [hp]
  · intro hadm hlive
    simp [disconnect, leaveStream, hu, hadm, hlive]
  · intro hadm hhas
    simp [disconnect, hu, hadm, hhas]
  · intro hadm hlive
    simp [disconnect, hu, hadm, hlive]

/-- Witness for C4 amended: the never-joined viewer `W`'s disconnect
equals the leave-equivalent transition at a concrete live state. -/
theorem c4_amended_disconnect_dispatch_witness :
    (disconnect "W" (run initState [Op.userInfo "A" "admin" true 0,
        Op.userInfo "V" "viewer" false 0, Op.userInfo "W" "other" false 0,
        Op.startStream "A" 1, Op.joinStream "V"])).1.streamState
      = (leaveStream "W" (run initState [Op.userInfo "A" "admin" true 0,
        Op.userInfo "V" "viewer" false 0, Op.userInfo "W" "other" false 0,
        Op.startStream "A" 1, Op.joinStream "V"])).1.streamState :=
  (c4_amended_disconnect_dispatch
    (run initState [Op.userInfo "A" "admin" true 0,
      Op.userInfo "V" "viewer" false 0, Op.userInfo "W" "other" false 0,
      Op.startStream "A" 1, Op.joinStream "V"])
    "W" ⟨"other", false, 0⟩ (by decide)).2.1 rfl (by decide)

/-- C5: `join-stream` from a registered connection fails with a targeted
error and leaves the whole state unchanged when the stream is offline or
the caller is a broadcaster; on success (non-broadcaster while live) it
increments `viewerCount`, notifies the primary broadcaster of the new
viewer, broadcasts the updated count to all, and confirms to the caller
— in that order. -/
theorem c5_join_viewer
    (s : ServerState) (sid : String) (u : UserInfo)
    (hu : lookupKey s.connectedUsers sid = some u) :
    (s.streamState.isLive = false ∨ u.isAdmin = true →
      (joinStream sid s).1 = s ∧
      (joinStream sid s).2 = [⟨Target.conn sid, SEvent.streamError
        (if s.streamState.isLive then "Failed to join stream"
         else "No live stream available")⟩]) ∧
    (∀ aid : String, u.isAdmin = false → s.streamState.isLive = true →
      s.streamState.currentAdminSocketId = some aid →
      (joinStream sid s).1
          = { s with streamState :=
              { s.streamState with viewerCount := s.streamState.viewerCount + 1 } } ∧
      (joinStream sid s).2 =
        [⟨Target.conn aid,
          SEvent.viewerJoined (s.streamState.viewerCount + 1) sid u.username⟩,
         ⟨Target.all, SEvent.viewerCountUpdate (s.streamState.viewerCount + 1)⟩,
         ⟨Target.conn sid, SEvent.viewerJoinedConfirmed "Successfully joined stream"
            (s.streamState.viewerCount + 1)⟩]) := by
  constructor
  · intro hfail
    rcases hfail with hoff | hadm
    · simp [joinStream, hu, hoff]
    · simp [joinStream, hu, hadm]
  · intro aid hadm hlive hprim
    simp [joinStream, hu, hadm, hlive, hprim]

/-- Witness for C5: joining while offline leaves the state unchanged, and
a concrete successful join increments the count from 0 to 1. -/
theorem c5_join_viewer_witness :
    (joinStream "V" (run initState [Op.userInfo "V" "viewer" false 0])).1
      = run initState [Op.userInfo "V" "viewer" false 0] ∧
    (joinStream "V" (run initState [Op.userInfo "A" "admin" true 0,
        Op.userInfo "V" "viewer" false 0, Op.startStream "A" 1])).1.streamState.viewerCount
      = (run initState [Op.userInfo "A" "admin" true 0,
        Op.userInfo "V" "viewer" false 0, Op.startStream "A" 1]).streamState.viewerCount + 1 := by
  constructor
  · exact ((c5_join_viewer (run initState [Op.userInfo "V" "viewer" false 0])
      "V" ⟨"viewer", false, 0⟩ (by decide)).1 (Or.inl (by decide))).1
  · have h := ((c5_join_viewer (run initState [Op.userInfo "A" "admin" true 0,
      Op.userInfo "V" "viewer" false 0, Op.startStream "A" 1])
      "V" ⟨"viewer", false, 0⟩ (by decide)).2 "A" rfl (by decide) (by decide)).1
    rw [h]

/-- C7: a relayed `webrtc-signal` with destination `t` changes no state,
produces exactly one event targeted at `t` — so no connection other than
`t` receives anything — and the delivered envelope carries the payload and
offer/answer tag unmodified with the sender field equal to the true
caller `sid`, whatever sender the caller claimed in `fromField`. -/
theorem c7_signal_relay_destination_exact
    (s : ServerState) (sid : String) (data : SignalData) (t : String)
    (sockets : List String)
    (hto : data.toId = some t) (hne : t ≠ "") :
    (webrtcSignal sid data s).1 = s ∧
    (webrtcSignal sid data s).2
      = [⟨Target.conn t, SEvent.webrtcSignal data.signal sid data.signalType⟩] ∧
    (∀ c : String, c ≠ t → deliveries sockets (webrtcSignal sid data s).2 c = []) ∧
    (sockets.contains t = true →
      deliveries sockets (webrtcSignal sid data s).2 t
        = [SEvent.webrtcSignal data.signal sid data.signalType]) := by
  have htne : (t != "") = true := bne_iff_ne.mpr hne
  refine ⟨?_, ?_, ?_, ?_⟩
  · simp [webrtcSignal, hto, htne]
  · simp [webrtcSignal, hto, htne]
  · intro c hc
    have hbeq : (t == c) = false := by
      simp only [beq_eq_false_iff_ne, ne_eq]
      exact fun hh => hc hh.symm
    simp [webrtcSignal, hto, htne, deliveries, deliversTo, hbeq]
  · intro hcont
    have hmem : t ∈ sockets := by simpa using hcont
    simp [webrtcSignal, hto, htne, deliveries, deliversTo, hmem]

/-- Witness for C7: a concrete relay from `X` to `Y` (with a spoofed
`fromField`) reaches `Y` with sender `X` and reaches nobody else. -/
theorem c7_signal_relay_destination_exact_witness :
    deliveries ["Y", "Z"]
      (webrtcSignal "X" ⟨"payload", some "Y", "offer", some "FAKE"⟩ initState).2 "Y"
      = [SEvent.webrtcSignal "payload" "X" "offer"] ∧
    deliveries ["Y", "Z"]
      (webrtcSignal "X" ⟨"payload", some "Y", "offer", some "FAKE"⟩ initState).2 "Z"
      = [] :=
  ⟨(c7_signal_relay_destination_exact initState "X"
      ⟨"payload", some "Y", "offer", some "FAKE"⟩ "Y" ["Y", "Z"] rfl
      (by decide)).2.2.2 (by decide),
   (c7_signal_relay_destination_exact initState "X"
      ⟨"payload", some "Y", "offer", some "FAKE"⟩ "Y" ["Y", "Z"] rfl
      (by decide)).2.2.1 "Z" (by decide)⟩

/-- C8: when no connected socket has the destination id of a
`webrtc-signal`, the relay is silent: the state is unchanged, no
connection receives anything, and no `stream-error` event is produced for
anyone (in particular not for the sender). -/
theorem c8_signal_relay_silent_miss
    (s : ServerState) (sid : String) (data : SignalData) (sockets : List String)
    (hmiss : ∀ t : String, data.toId = some t → sockets.contains t = false) :
    (webrtcSignal sid data s).1 = s ∧
    (∀ c : String, deliveries sockets (webrtcSignal sid data s).2 c = []) ∧
    (∀ e ∈ (webrtcSignal sid data s).2, ∀ msg : String,
      e.event ≠ SEvent.streamError msg) := by
  refine ⟨?_, ?_, ?_⟩
  · cases hto : data.toId with
    | none => simp [webrtcSignal, hto]
    | some t =>
      simp only [webrtcSignal, hto]
      split <;> rfl
  · intro c
    cases hto : data.toId with
    | none => simp [webrtcSignal, hto, deliveries]
    | some t =>
      by_cases hne : t = ""
      · subst hne
        simp [webrtcSignal, hto, deliveries]
      · have htne : (t != "") = true := bne_iff_ne.mpr hne
        by_cases hct : c = t
        · subst hct
          have hnmem : c ∉ sockets := by simpa using hmiss c hto
          simp [webrtcSignal, hto, htne, deliveries, hnmem]
        · have hbeq : (t == c) = false := by
            simp only [beq_eq_false_iff_ne, ne_eq]
            exact fun hh => hct hh.symm
          simp [webrtcSignal, hto, htne, deliveries, deliversTo, hbeq]
  · intro e he msg
    simp only [webrtcSignal] at he
    split at he
    · split at he
      · simp only [List.mem_singleton] at he
        subst he
        simp
      · simp at he
    · simp at he

/-- Witness for C8: destination `Y` is not among the connected sockets
(only the sender `X` is); the state is unchanged and even the sender
receives nothing. -/
theorem c8_signal_relay_silent_miss_witness :
    (webrtcSignal "X" ⟨"payload", some "Y", "offer", none⟩ initState).1 = initState ∧
    deliveries ["X"]
      (webrtcSignal "X" ⟨"payload", some "Y", "offer", none⟩ initState).2 "X" = [] := by
  have h := c8_signal_relay_silent_miss initState "X"
    ⟨"payload", some "Y", "offer", none⟩ ["X"]
    (fun t ht => by
      simp only [Option.some.injEq] at ht
      subst ht
      decide)
  exact ⟨h.1, h.2.1 "X"⟩

set_option maxRecDepth 10000 in
/-- C9 counterexample: the frontend input caps chat text at 500
characters, but the server-side handler applies no bound: a 501-character
text from a registered connection is published verbatim — neither
truncated nor rejected — so the claim that the constructed ChatMessage's
text has bounded length is false on the code. -/
theorem c9_counterexample :
    longChatText.length = chatMaxLength + 1 ∧
    (chatMessage "U" longChatText 5
        (stepState initState (Op.userInfo "U" "user" false 0))).2
      = [⟨Target.all, SEvent.chatMessage 5 "user" longChatText 5 false "U"⟩] := by
  constructor
  · decide
  · decide

/-- C9 amended: a chat send from a registered connection is published to
every connected socket including the sender, with the sender's name and
role taken from the registry and the text passed through verbatim — the
server never truncates or rejects long text; the only length bound is the
frontend input's `maxLength` of 500. -/
theorem c9_amended_chat_fanout_verbatim
    (s : ServerState) (sid : String) (text : String) (now : Nat) (u : UserInfo)
    (sockets : List String)
    (hu : lookupKey s.connectedUsers sid = some u) :
    (chatMessage sid text now s).1 = s ∧
    (chatMessage sid text now s).2
      = [⟨Target.all, SEvent.chatMessage now u.username text now u.isAdmin sid⟩] ∧
    (∀ c : String, sockets.contains c = true →
      deliveries sockets (chatMessage sid text now s).2 c
        = [SEvent.chatMessage now u.username text now u.isAdmin sid]) := by
  refine ⟨?_, ?_, ?_⟩
  · simp [chatMessage, hu]
  · simp [chatMessage, hu]
  · intro c hc
    have hmem : c ∈ sockets := by simpa using hc
    simp [chatMessage, hu, deliveries, deliversTo, hmem]

/-- Witness for C9 amended: the over-long text reaches the sender itself
unmodified. -/
theorem c9_amended_chat_fanout_verbatim_witness :
    deliveries ["U"] (chatMessage "U" longChatText 5
        (stepState initState (Op.userInfo "U" "user" false 0))).2 "U"
      = [SEvent.chatMessage 5 "user" longChatText 5 false "U"] :=
  (c9_amended_chat_fanout_verbatim
    (stepState initState (Op.userInfo "U" "user" false 0)) "U" longChatText 5
    ⟨"user", false, 0⟩ ["U"] (by decide)).2.2 "U" (by decide)

/-- A successful `join-stream` call only bumps `viewerCount`; the rest of
the state — including the session registry, which records nothing about
who joined — is untouched, so the preconditions for joining again still
hold. -/
theorem join_replicate_count (sid : String) (u : UserInfo) (n : Nat) :
    ∀ s : ServerState, lookupKey s.connectedUsers sid = some u →
      u.isAdmin = false → s.streamState.isLive = true →
      (run s (List.replicate n (Op.joinStream sid))).streamState.viewerCount
        = s.streamState.viewerCount + n := by
  induction n with
  | zero =>
    intro s _ _ _
    simp [run]
  | succ m ih =>
    intro s hu hadmin hlive
    rw [List.replicate_succ]
    have hstep : stepState s (Op.joinStream sid)
        = { s with streamState :=
            { s.streamState with viewerCount := s.streamState.viewerCount + 1 } } := by
      simp [stepState, step, joinStream, hu, hadmin, hlive]
    have hrun : run s (Op.joinStream sid :: List.replicate m (Op.joinStream sid))
        = run (stepState s (Op.joinStream sid)) (List.replicate m (Op.joinStream sid)) := rfl
    rw [hrun, hstep,
      ih { s with streamState :=
          { s.streamState with viewerCount := s.streamState.viewerCount + 1 } }
        hu hadmin hlive]
    show s.streamState.viewerCount + 1 + (m : Int)
        = s.streamState.viewerCount + ((m + 1 : Nat) : Int)
    push_cast
    ring

/-- C10: `join-stream` is not idempotent per connection — the server keeps
no record of which connections joined, so `n` repeated joins from the same
registered non-broadcaster while live add `n` to `viewerCount`, and each
call re-notifies the primary broadcaster and broadcasts the count again. -/
theorem c10_repeated_join_inflates_count
    (s : ServerState) (sid : String) (u : UserInfo) (n : Nat)
    (hu : lookupKey s.connectedUsers sid = some u)
    (hadmin : u.isAdmin = false)
    (hlive : s.streamState.isLive = true) :
    (run s (List.replicate n (Op.joinStream sid))).streamState.viewerCount
      = s.streamState.viewerCount + n ∧
    (∀ aid : String, s.streamState.currentAdminSocketId = some aid →
      (joinStream sid s).2 =
        [⟨Target.conn aid,
          SEvent.viewerJoined (s.streamState.viewerCount + 1) sid u.username⟩,
         ⟨Target.all, SEvent.viewerCountUpdate (s.streamState.viewerCount + 1)⟩,
         ⟨Target.conn sid, SEvent.viewerJoinedConfirmed "Successfully joined stream"
            (s.streamState.viewerCount + 1)⟩]) := by
  constructor
  · exact join_replicate_count sid u n s hu hadmin hlive
  · intro aid hprim
    simp [joinStream, hu, hadmin, hlive, hprim]

/-- Witness for C10: the same viewer `V` joins three times and the count
reaches 3. -/
theorem c10_repeated_join_inflates_count_witness :
    (run (run initState [Op.userInfo "A" "admin" true 0,
        Op.userInfo "V" "viewer" false 0, Op.startStream "A" 1])
        (List.replicate 3 (Op.joinStream "V"))).streamState.viewerCount = 3 := by
  have h := (c10_repeated_join_inflates_count
    (run initState [Op.userInfo "A" "admin" true 0,
      Op.userInfo "V" "viewer" false 0, Op.startStream "A" 1])
    "V" ⟨"viewer", false, 0⟩ 3 (by decide) rfl (by decide)).1
  rw [h]
  decide

end Livestream
